import Mathlib

/-!
Verification of the channel virtualization and inter-tier transport core of
thingengine-core, against its natural-language specification.

The development shallowly embeds the relevant JavaScript source files:

* `ChannelFactory.getChannel` and `getOpenedChannel` together with the
  `ChannelStateBinder` (src/unnamed/part_001);
* `ClientConnection` and `ServerConnection` (src/lib/tiers/tier_connections.js);
* `PipeSinkChannel` (src/lib/tiers/pipes.js);
* `ChannelOpener._openOneChannel` / `_openChannels` (src/lib/apps/channel_opener.js).

Stateful code is embedded as explicit state passing: each JavaScript method
becomes a pure Lean function from the old state (plus the inputs the event
loop hands it) to the new state together with the externally visible effects
(socket sends, terminations, log lines, events emitted to the application
layer).  Instrumentation fields (counters, lists of effect records) are
appended to the state so that the specification's claims about "how many
times" something happened become statements about those fields.
-/

/-! ## Channel Factory (src/unnamed/part_001, `module.exports = class ChannelFactory`)

Channel instances are identified by the order in which their constructor ran
(`nextInstance` is the fresh-instance counter).  A stateful channel's
`ChannelStateBinder` is identified by the instance number of the channel it
was created for (the binder is allocated immediately before the constructor
runs, one per construction).  The instrumentation fields record every
constructor run, every `state.open()` and every `state.close()`. -/

structure FactoryState where
  /-- the `_cachedChannels` map: uniqueId to channel instance -/
  cache : List (String × Nat)
  /-- fresh instance counter (next channel constructed gets this number) -/
  nextInstance : Nat
  /-- instrumentation: how many times a channel constructor ran -/
  constructorRuns : Nat
  /-- instrumentation: binders on which `state.open()` ran, in order -/
  openedBinders : List Nat
  /-- instrumentation: binders on which `state.close()` ran, in order -/
  closedBinders : List Nat
deriving Repr, DecidableEq

/-- the factory state at engine startup: empty cache, nothing constructed -/
def FactoryState.initial : FactoryState :=
  { cache := [], nextInstance := 0, constructorRuns := 0,
    openedBinders := [], closedBinders := [] }

/-- computation of `channel.uniqueId` in `getChannel` (part_001 lines 152-155):
`device.uniqueId + '-' + kind`, with `'-' + channel.filterString` appended
when the constructed channel defines `filterString`. -/
def mkUniqueId (deviceId kind : String) (filterString : Option String) : String :=
  match filterString with
  | some f => deviceId ++ "-" ++ kind ++ "-" ++ f
  | none => deviceId ++ "-" ++ kind

/-- embedding of `ChannelFactory.getChannel` (part_001 lines 118-178), after
the capability check has passed.  The channel constructor runs
unconditionally (`channel = new factory(...)` or `factory.createChannel(...)`);
`hasState` says whether `caps.indexOf('channel-state') >= 0`, in which case a
`ChannelStateBinder` is allocated, `init`-ed with the uniqueId and opened.
Then the cache is consulted: on a hit the cached instance is returned (the
source closes no binder on this path); on a miss the source runs
`state.close()` on the binder of the channel being cached and stores the
channel.  Returns the instance handed back to the caller and the new state. -/
def getChannel (s : FactoryState) (deviceId kind : String)
    (filterString : Option String) (hasState : Bool) : Nat × FactoryState :=
  let inst := s.nextInstance
  let s1 : FactoryState :=
    { s with nextInstance := inst + 1, constructorRuns := s.constructorRuns + 1 }
  let uid := mkUniqueId deviceId kind filterString
  if hasState then
    let s2 : FactoryState := { s1 with openedBinders := s1.openedBinders ++ [inst] }
    match s2.cache.lookup uid with
    | some cached => (cached, s2)
    | none =>
        (inst, { s2 with closedBinders := s2.closedBinders ++ [inst],
                         cache := s2.cache ++ [(uid, inst)] })
  else
    match s1.cache.lookup uid with
    | some cached => (cached, s1)
    | none => (inst, { s1 with cache := s1.cache ++ [(uid, inst)] })

/-- a sequence of `getChannel` calls with identical normalized parameters,
returning the list of instances handed back and the final factory state -/
def runCalls (s : FactoryState) (deviceId kind : String)
    (filterString : Option String) (hasState : Bool) : Nat → List Nat × FactoryState
  | 0 => ([], s)
  | n + 1 =>
      let r := getChannel s deviceId kind filterString hasState
      let rest := runCalls r.2 deviceId kind filterString hasState n
      (r.1 :: rest.1, rest.2)

/-- on a cache hit, `getChannel` returns the cached instance and leaves the
cache untouched -/
theorem getChannel_hit (s : FactoryState) (deviceId kind : String)
    (filterString : Option String) (hasState : Bool) (c : Nat)
    (h : s.cache.lookup (mkUniqueId deviceId kind filterString) = some c) :
    (getChannel s deviceId kind filterString hasState).1 = c ∧
    (getChannel s deviceId kind filterString hasState).2.cache = s.cache := by
  unfold getChannel
  cases hasState <;> simp [h]

/-- all calls after the first, from a state whose cache maps the uniqueId to
instance `c`, keep returning `c` and keep the cache unchanged -/
theorem runCalls_hit (deviceId kind : String) (filterString : Option String)
    (hasState : Bool) (c : Nat) :
    ∀ (n : Nat) (s : FactoryState),
      s.cache.lookup (mkUniqueId deviceId kind filterString) = some c →
      (runCalls s deviceId kind filterString hasState n).1 = List.replicate n c ∧
      (runCalls s deviceId kind filterString hasState n).2.cache = s.cache := by
  intro n
  induction n with
  | zero => intro s _; simp [runCalls]
  | succ m ih =>
      intro s h
      have h1 := getChannel_hit s deviceId kind filterString hasState c h
      have h2 := ih (getChannel s deviceId kind filterString hasState).2
        (by rw [h1.2]; exact h)
      simp [runCalls, h1.1, h1.2, h2.1, h2.2, List.replicate_succ]

/-- the first call from the pristine factory state returns instance `0` and
caches exactly it under the computed uniqueId -/
theorem getChannel_first (deviceId kind : String) (filterString : Option String)
    (hasState : Bool) :
    (getChannel FactoryState.initial deviceId kind filterString hasState).1 = 0 ∧
    (getChannel FactoryState.initial deviceId kind filterString hasState).2.cache =
      [(mkUniqueId deviceId kind filterString, 0)] := by
  unfold getChannel FactoryState.initial
  cases hasState <;> simp

/-- every `getChannel` call runs the channel constructor exactly once,
whether or not the cache already holds the uniqueId -/
theorem getChannel_ctorRuns (s : FactoryState) (deviceId kind : String)
    (filterString : Option String) (hasState : Bool) :
    (getChannel s deviceId kind filterString hasState).2.constructorRuns =
      s.constructorRuns + 1 := by
  unfold getChannel
  dsimp only
  repeat' split
  all_goals rfl

/-- a sequence of `n` calls runs the constructor exactly `n` times -/
theorem runCalls_ctorRuns (deviceId kind : String) (filterString : Option String)
    (hasState : Bool) :
    ∀ (n : Nat) (s : FactoryState),
      (runCalls s deviceId kind filterString hasState n).2.constructorRuns =
        s.constructorRuns + n := by
  intro n
  induction n with
  | zero => intro s; rfl
  | succ m ih =>
      intro s
      show (runCalls (getChannel s deviceId kind filterString hasState).2
          deviceId kind filterString hasState m).2.constructorRuns =
        s.constructorRuns + (m + 1)
      rw [ih, getChannel_ctorRuns]
      omega

/-- C1 (counterexample).  The claim as stated requires the underlying channel
constructor to run at most once across a sequence of `getChannel` calls that
normalize to the same uniqueId.  On the source, the constructor runs
unconditionally on every call (the cache is consulted only afterwards, since
the uniqueId depends on the constructed channel's `filterString`): two calls
with identical parameters leave `constructorRuns = 2`. -/
theorem factory_dedup_ctor_counterexample :
    ¬ ((runCalls FactoryState.initial "dev" "kind" none false 2).2.constructorRuns ≤ 1) := by
  decide

/-- C1 (amended).  For any sequence of `n ≥ 1` `getChannel` calls whose
parameters normalize to the same uniqueId, starting from the pristine factory
state, every call returns the same channel instance (the one constructed and
cached by the first call), and at most one constructed instance is ever
stored in the cache; the constructor itself runs once per call, the surplus
instances being discarded. -/
theorem factory_dedup_same_instance (deviceId kind : String)
    (filterString : Option String) (hasState : Bool) (n : Nat) (hn : 1 ≤ n) :
    (runCalls FactoryState.initial deviceId kind filterString hasState n).1 =
      List.replicate n 0 ∧
    (runCalls FactoryState.initial deviceId kind filterString hasState n).2.cache =
      [(mkUniqueId deviceId kind filterString, 0)] ∧
    (runCalls FactoryState.initial deviceId kind filterString hasState n).2.constructorRuns =
      n := by
  obtain ⟨m, rfl⟩ : ∃ m, n = m + 1 := ⟨n - 1, by omega⟩
  have h1 := getChannel_first deviceId kind filterString hasState
  have h2 := runCalls_hit deviceId kind filterString hasState 0 m
    (getChannel FactoryState.initial deviceId kind filterString hasState).2
    (by rw [h1.2]; simp)
  refine ⟨?_, ?_, ?_⟩
  · simp [runCalls, h1.1, h2.1, List.replicate_succ]
  · simp [runCalls, h2.2, h1.2]
  · rw [runCalls_ctorRuns deviceId kind filterString hasState (m + 1)
      FactoryState.initial]
    simp [FactoryState.initial]

/-- C1 witness: three stateless calls for the same device and kind all
return instance 0, the cache holds exactly one entry, and the constructor
ran three times. -/
theorem factory_dedup_same_instance_witness :
    (runCalls FactoryState.initial "dev" "kind" none false 3).1 =
      List.replicate 3 0 ∧
    (runCalls FactoryState.initial "dev" "kind" none false 3).2.cache =
      [(mkUniqueId "dev" "kind" none, 0)] ∧
    (runCalls FactoryState.initial "dev" "kind" none false 3).2.constructorRuns = 3 :=
  factory_dedup_same_instance "dev" "kind" none false 3 (by decide)

/-- C4 (code bug).  Two stateful `getChannel` calls with the same uniqueId:
the second call returns the cached instance 0 as required, but the source
closes the state binder in the cache-miss branch and not in the cache-hit
branch.  Concretely: after the two calls the binder of the kept, cached
channel (binder 0) has been closed — during the first call, right when the
channel was being cached — while the orphaned binder of the discarded
duplicate (binder 1) was opened and never closed.  The specification requires
the opposite: close the orphan on the hit path, leave the cached channel's
binder alone. -/
theorem factory_state_binder_close_bug :
    ((runCalls FactoryState.initial "dev" "kind" none true 2).1 = [0, 0]) ∧
    (runCalls FactoryState.initial "dev" "kind" none true 2).2.openedBinders = [0, 1] ∧
    (runCalls FactoryState.initial "dev" "kind" none true 2).2.closedBinders = [0] ∧
    ¬ (1 ∈ (runCalls FactoryState.initial "dev" "kind" none true 2).2.closedBinders) := by
  decide

/-! ## Placement decision (`getOpenedChannel`, part_001 lines 98-107 and 186-192) -/

namespace Tier

/-- the `Tier.GLOBAL` constant from the thingpedia `Tier` enumeration -/
def GLOBAL : String := "global"

end Tier

/-- the `targetChannelId` computed by `ChannelFactory._getProxyChannel`
(part_001 lines 99-101): `device.uniqueId + '-' + kind`, and for mode `'r'`
additionally `'-' + Protocol.params.makeString(params)`.  The serialized
parameter string is passed in as `paramsStr` (the serializer itself lives in
src/lib/tiers/protocol.js, outside the embedded core; every statement below
is proved for an arbitrary serialization result). -/
def targetChannelIdOf (deviceUniqueId kind : String) (mode : Char)
    (paramsStr : String) : String :=
  let base := deviceUniqueId ++ "-" ++ kind
  if mode = 'r' then base ++ "-" ++ paramsStr else base

/-- a device as seen by the factory's placement logic -/
structure PDevice where
  uniqueId : String
  ownerTier : String
deriving Repr, DecidableEq

/-- the outcome of `getOpenedChannel`: either a locally instantiated channel,
opened in place, or a proxy channel obtained from the Proxy Manager with the
recorded target channel id and target tier (also opened).  `localInstance`
is the channel instance obtained through `getChannel` on this tier (in the
proxy case it is the local stub `_getProxyChannel` passes to the Proxy
Manager). -/
inductive Placement where
  | localChannel (inst : Nat) (opened : Bool)
  | proxyChannel (channelId : String) (targetTier : String)
      (localInstance : Nat) (opened : Bool)
deriving Repr, DecidableEq

/-- embedding of `ChannelFactory.getOpenedChannel` (part_001 lines 186-192)
together with `_getProxyChannel` (lines 98-107) and `_getOpenedChannel`
(lines 180-184, which opens the resulting channel): if the device's
`ownerTier` equals this process's own tier or is `Tier.GLOBAL`, the channel
is obtained locally through `getChannel` and opened; otherwise the Proxy
Manager is invoked with the computed target channel id and
`targetTier = device.ownerTier`, and the proxy channel is opened. -/
def getOpenedChannel (s : FactoryState) (ownTier : String) (device : PDevice)
    (id : String) (mode : Char) (filterString : Option String)
    (hasState : Bool) (paramsStr : String) : Placement × FactoryState :=
  if device.ownerTier = ownTier ∨ device.ownerTier = Tier.GLOBAL then
    let r := getChannel s device.uniqueId id filterString hasState
    (.localChannel r.1 true, r.2)
  else
    let r := getChannel s device.uniqueId id filterString hasState
    (.proxyChannel (targetChannelIdOf device.uniqueId id mode paramsStr)
        device.ownerTier r.1 true, r.2)

/-- C7.  For every `getOpenedChannel` call: when `device.ownerTier` equals
the process's own tier or is GLOBAL, the channel is obtained locally via
`getChannel` and opened; otherwise the Proxy Manager is invoked with
`targetTier = device.ownerTier` and a target channel id equal to
`deviceId + '-' + kind`, extended for mode `'r'` with `'-'` plus the
serialized params, and the resulting proxy channel is opened. -/
theorem factory_placement_decision (s : FactoryState) (ownTier : String)
    (device : PDevice) (id : String) (mode : Char) (filterString : Option String)
    (hasState : Bool) (paramsStr : String) :
    (device.ownerTier = ownTier ∨ device.ownerTier = Tier.GLOBAL →
      (getOpenedChannel s ownTier device id mode filterString hasState paramsStr).1 =
        .localChannel (getChannel s device.uniqueId id filterString hasState).1 true) ∧
    (¬ (device.ownerTier = ownTier ∨ device.ownerTier = Tier.GLOBAL) →
      (getOpenedChannel s ownTier device id mode filterString hasState paramsStr).1 =
        .proxyChannel
          (device.uniqueId ++ "-" ++ id ++
            (if mode = 'r' then "-" ++ paramsStr else ""))
          device.ownerTier
          (getChannel s device.uniqueId id filterString hasState).1 true) := by
  constructor
  · intro h
    simp [getOpenedChannel, h]
  · intro h
    simp only [getOpenedChannel, if_neg h]
    unfold targetChannelIdOf
    by_cases hm : mode = 'r' <;> simp [hm, String.append_assoc]

/-- C7 witness, the specification's scenario: device D owned by tier
"server", requested from a "phone" tier with kind "poll" and mode `'r'`; the
result goes through the proxy path with targetTier "server" and channel id
"D-poll-" plus the serialized params. -/
theorem factory_placement_decision_witness :
    (getOpenedChannel FactoryState.initial "phone" ⟨"D", "server"⟩ "poll" 'r'
        none false "ps").1 =
      .proxyChannel ("D" ++ "-" ++ "poll" ++ ("-" ++ "ps")) "server"
        (getChannel FactoryState.initial "D" "poll" none false).1 true := by
  have h := (factory_placement_decision FactoryState.initial "phone"
    ⟨"D", "server"⟩ "poll" 'r' none false "ps").2 (by decide)
  simpa using h

/-! ## Pipe sink (src/lib/tiers/pipes.js, `PipeSinkChannel`, lines 27-72)

Sources are identified by numbers.  `sendEvent` defers the fan-out with
`setTimeout(..., 0)` and then delivers the event to every source in
`_sources`; the deferral does not change which sources receive the event in
a single-sink scenario, so the embedding returns the delivery list directly.
The sink state is only its `_sources` array; `sendEvent` does not modify it
(events to zero sources are dropped, never queued). -/

structure PipeSink where
  sources : List Nat
deriving Repr, DecidableEq

/-- embedding of `PipeSinkChannel.addSource`: push onto `_sources` -/
def PipeSink.addSource (s : PipeSink) (src : Nat) : PipeSink :=
  { s with sources := s.sources ++ [src] }

/-- embedding of `PipeSinkChannel.removeSource`: filter out the source -/
def PipeSink.removeSource (s : PipeSink) (src : Nat) : PipeSink :=
  { s with sources := s.sources.filter (fun x => x ≠ src) }

/-- embedding of `PipeSinkChannel.sendEvent`: the list of
(source, event) deliveries performed by the deferred fan-out -/
def PipeSink.sendEvent (s : PipeSink) (event : Nat) : List (Nat × Nat) :=
  s.sources.map (fun src => (src, event))

/-- C8.  For a pipe sink: with zero attached sources a sent event is
delivered to no one (and the sink state carries no queue, so it is dropped);
with two distinct attached sources every sent event is delivered exactly
once to each of the two; after detaching one source via `removeSource`,
subsequent events are delivered to the remaining source and not to the
detached one. -/
theorem pipe_sink_fanout (a b e e' : Nat) (hab : a ≠ b) :
    (PipeSink.sendEvent ⟨[]⟩ e = []) ∧
    (PipeSink.sendEvent ⟨[a, b]⟩ e = [(a, e), (b, e)]) ∧
    ((PipeSink.sendEvent ⟨[a, b]⟩ e).count (a, e) = 1 ∧
     (PipeSink.sendEvent ⟨[a, b]⟩ e).count (b, e) = 1) ∧
    ((PipeSink.removeSource ⟨[a, b]⟩ a).sources = [b] ∧
     PipeSink.sendEvent (PipeSink.removeSource ⟨[a, b]⟩ a) e' = [(b, e')] ∧
     ¬ ((a, e') ∈ PipeSink.sendEvent (PipeSink.removeSource ⟨[a, b]⟩ a) e')) := by
  have hba : ¬ (b = a) := fun h => hab h.symm
  refine ⟨rfl, rfl, ⟨?_, ?_⟩, ?_, ?_, ?_⟩
  · simp [PipeSink.sendEvent, List.count_cons, hab, hba]
  · simp [PipeSink.sendEvent, List.count_cons, hab, hba]
  · simp [PipeSink.removeSource, hab, hba]
  · simp [PipeSink.removeSource, PipeSink.sendEvent, hab, hba]
  · simp [PipeSink.removeSource, PipeSink.sendEvent, hab, hba]

/-- C8 witness at sources 1 and 2 with events 7 and 9. -/
theorem pipe_sink_fanout_witness :
    (PipeSink.sendEvent ⟨[]⟩ 7 = []) ∧
    (PipeSink.sendEvent ⟨[1, 2]⟩ 7 = [(1, 7), (2, 7)]) ∧
    ((PipeSink.sendEvent ⟨[1, 2]⟩ 7).count (1, 7) = 1 ∧
     (PipeSink.sendEvent ⟨[1, 2]⟩ 7).count (2, 7) = 1) ∧
    ((PipeSink.removeSource ⟨[1, 2]⟩ 1).sources = [2] ∧
     PipeSink.sendEvent (PipeSink.removeSource ⟨[1, 2]⟩ 1) 9 = [(2, 9)] ∧
     ¬ ((1, 9) ∈ PipeSink.sendEvent (PipeSink.removeSource ⟨[1, 2]⟩ 1) 9)) :=
  pipe_sink_fanout 1 2 7 9 (by decide)

/-! ## Channel Opener (src/lib/apps/channel_opener.js, lines 107-125 and 59-66)

A device exposes `getTrigger`/`getQuery`/`getAction`; each either yields a
channel or rejects with an error message.  `_openOneChannel` picks the getter
by mode, attaches a `.catch` that logs the failure (device id and stack) and
resolves to `null`, and hands the result to `_set.addOne`; `addOne(null)`
adds nothing to the set (the thingpedia `ObjectSet` contract, modelled from
the spec: a per-device failure is treated as "no channel for that device").
An invalid mode throws a `TypeError` synchronously, which the embedding
surfaces through `Except`. -/

structure ODevice where
  uniqueId : String
  getTrigger : Except String Nat
  getQuery : Except String Nat
  getAction : Except String Nat

/-- Modelled from the spec: `ObjectSet.Simple.addOne` applied to the result
of the caught per-device promise — a `null` result ("no channel for that
device") adds nothing, a channel is added to the live set.  The `ObjectSet`
implementation itself is an external collaborator (thingpedia), not part of
the supplied source. -/
def addOne (set : List Nat) (c : Option Nat) : List Nat :=
  match c with
  | some ch => set ++ [ch]
  | none => set

/-- embedding of `ChannelOpener._openOneChannel` (lines 107-125): select the
getter by mode (throwing `TypeError` on an invalid mode), then catch a
failure, log it with the device id and stack, and resolve to `null`.
Returns the option added to the set and the log lines produced. -/
def openOneChannel (mode : Char) (d : ODevice) :
    Except String (Option Nat × List String) :=
  let getter : Except String (Except String Nat) :=
    if mode = 'r' then .ok d.getTrigger
    else if mode = 'q' then .ok d.getQuery
    else if mode = 'w' then .ok d.getAction
    else .error "TypeError: Invalid mode"
  getter.bind (fun p =>
    match p with
    | .ok ch => .ok (some ch, [])
    | .error e =>
        .ok (none, ["Failed to get channel in device " ++ d.uniqueId ++ ": " ++ e]))

/-- embedding of `ChannelOpener._openChannels` (lines 59-66), the body of
`start()`: open one channel per currently-matching device, accumulating the
live set and the log lines.  The overall computation rejects only if
`_openOneChannel` throws synchronously (invalid mode). -/
def openChannels (mode : Char) (set : List Nat) (logs : List String) :
    List ODevice → Except String (List Nat × List String)
  | [] => .ok (set, logs)
  | d :: rest =>
      (openOneChannel mode d).bind (fun r =>
        openChannels mode (addOne set r.1) (logs ++ r.2) rest)


/-- the getter `_openOneChannel` selects for a valid mode -/
def getterOf (mode : Char) (d : ODevice) : Except String Nat :=
  if mode = 'r' then d.getTrigger
  else if mode = 'q' then d.getQuery else d.getAction

/-- under a valid mode, `openOneChannel` never throws; a failing getter is
mapped to `none` plus a log line naming the device -/
theorem openOneChannel_ok (mode : Char) (d : ODevice)
    (hm : mode = 'r' ∨ mode = 'q' ∨ mode = 'w') :
    openOneChannel mode d =
      .ok (match getterOf mode d with
           | .ok ch => (some ch, [])
           | .error e =>
               (none, ["Failed to get channel in device " ++ d.uniqueId ++ ": " ++ e])) := by
  have hq : ¬ (('q' : Char) = 'r') := by decide
  have hw1 : ¬ (('w' : Char) = 'r') := by decide
  have hw2 : ¬ (('w' : Char) = 'q') := by decide
  rcases hm with h | h | h <;> subst h
  · cases hg : d.getTrigger <;>
      simp [openOneChannel, getterOf, Except.bind, hg]
  · cases hg : d.getQuery <;>
      simp [openOneChannel, getterOf, Except.bind, hg, hq]
  · cases hg : d.getAction <;>
      simp [openOneChannel, getterOf, Except.bind, hg, hw1, hw2]

/-- the channel a device contributes under a valid mode, ignoring failures -/
def deviceChannel (mode : Char) (d : ODevice) : Option Nat :=
  (getterOf mode d).toOption

/-- C9.  When the Opener's `start()` opens channels for the
currently-matching devices (under a valid mode): the whole pass never
rejects; every device whose channel getter fails contributes no channel but
a log line carrying its device id and the error, and every device whose
getter succeeds contributes its channel — a single failing device never
prevents the other devices' channels from being opened.  The final live set
is exactly the list of successfully obtained channels, in device order. -/
theorem opener_per_device_failure_contained (mode : Char) (devices : List ODevice)
    (hm : mode = 'r' ∨ mode = 'q' ∨ mode = 'w') :
    ∃ logs, openChannels mode [] [] devices =
      .ok (devices.filterMap (deviceChannel mode), logs) ∧
      (∀ d ∈ devices, ∀ e, getterOf mode d = .error e →
        ("Failed to get channel in device " ++ d.uniqueId ++ ": " ++ e) ∈ logs) := by
  suffices h : ∀ (set : List Nat) (logs0 : List String),
      ∃ logs, openChannels mode set logs0 devices =
        .ok (set ++ devices.filterMap (deviceChannel mode), logs0 ++ logs) ∧
        (∀ d ∈ devices, ∀ e, getterOf mode d = .error e →
          ("Failed to get channel in device " ++ d.uniqueId ++ ": " ++ e) ∈ logs) by
    obtain ⟨logs, h1, h2⟩ := h [] []
    exact ⟨logs, by simpa using h1, h2⟩
  induction devices with
  | nil => intro set logs0; exact ⟨[], by simp [openChannels], by simp⟩
  | cons d rest ih =>
      intro set logs0
      rcases hg : getterOf mode d with e | ch
      · obtain ⟨logs, h1, h2⟩ :=
          ih (addOne set none)
            (logs0 ++ ["Failed to get channel in device " ++ d.uniqueId ++ ": " ++ e])
        refine ⟨("Failed to get channel in device " ++ d.uniqueId ++ ": " ++ e) :: logs,
          ?_, ?_⟩
        · simp only [openChannels, openOneChannel_ok mode d hm, hg, Except.bind]
          rw [h1]
          simp [addOne, deviceChannel, hg, Except.toOption]
        · intro d' hd' e' hfail
          rcases List.mem_cons.1 hd' with rfl | hmem
          · rw [hg] at hfail
            cases hfail
            simp
          · exact List.mem_cons_of_mem _ (h2 d' hmem e' hfail)
      · obtain ⟨logs, h1, h2⟩ := ih (addOne set (some ch)) (logs0 ++ [])
        refine ⟨logs, ?_, ?_⟩
        · simp only [openChannels, openOneChannel_ok mode d hm, hg, Except.bind]
          rw [h1]
          simp [addOne, deviceChannel, hg, Except.toOption]
        · intro d' hd' e' hfail
          rcases List.mem_cons.1 hd' with rfl | hmem
          · rw [hg] at hfail; cases hfail
          · exact h2 d' hmem e' hfail

/-- C9 witness: two devices in mode `'r'`, the first failing and the second
succeeding; the set ends up holding exactly the second device's channel and
the failure is logged with the first device's id. -/
theorem opener_per_device_failure_contained_witness :
    ∃ logs, openChannels 'r' [] []
        [⟨"dBad", .error "boom", .error "x", .error "x"⟩,
         ⟨"dGood", .ok 42, .error "x", .error "x"⟩] =
      .ok ([⟨"dBad", .error "boom", .error "x", .error "x"⟩,
            ⟨"dGood", .ok 42, .error "x", .error "x"⟩].filterMap (deviceChannel 'r'), logs) ∧
      (∀ d ∈ [(⟨"dBad", .error "boom", .error "x", .error "x"⟩ : ODevice),
              ⟨"dGood", .ok 42, .error "x", .error "x"⟩],
        ∀ e, getterOf 'r' d = .error e →
        ("Failed to get channel in device " ++ d.uniqueId ++ ": " ++ e) ∈ logs) :=
  opener_per_device_failure_contained 'r'
    [⟨"dBad", .error "boom", .error "x", .error "x"⟩,
     ⟨"dGood", .ok 42, .error "x", .error "x"⟩] (Or.inl rfl)

/-! ## Channel state binder (src/unnamed/part_001, `ChannelStateBinder`, lines 19-62)

The binder caches the key/value record in `_cached`; `set` updates the cache,
cancels the pending `setTimeout` and schedules a flush 500 ms later;
`_flushToDisk` writes the whole cached record through `db.insertOne`;
`_doClose` cancels the pending timer and flushes once, synchronously.

Timers follow the JavaScript semantics of `setTimeout`/`clearTimeout`: every
scheduled timer gets a fresh identity, `_updateTimeout` holds the identity
and deadline of the one currently pending, and a timer only fires if it is
still the pending one (a cleared or superseded timer never fires).  The
driver `runB` folds binder operations and timer firings over the state. -/

/-- lookup in the opaque key-to-value record -/
def lookupA : List (String × Nat) → String → Option Nat
  | [], _ => none
  | (k', v) :: rest, k => if k' = k then some v else lookupA rest k

/-- update-or-add in the opaque key-to-value record (`this._cached[name] = value`) -/
def setAssoc : List (String × Nat) → String → Nat → List (String × Nat)
  | [], k, v => [(k, v)]
  | (k', v') :: rest, k, v =>
      if k' = k then (k, v) :: rest else (k', v') :: setAssoc rest k v

structure BinderState where
  /-- the `_cached` record -/
  cached : List (String × Nat)
  /-- the `_updateTimeout` handle: identity and deadline of the pending timer -/
  updateTimeout : Option (Nat × Nat)
  /-- fresh timer identity counter -/
  nextTimer : Nat
  /-- the sequence of `db.insertOne(uniqueId, cached)` writes performed -/
  writes : List (List (String × Nat))
deriving Repr, DecidableEq

/-- embedding of `ChannelStateBinder.set` (lines 36-41): update the cache,
clear the pending timeout and schedule `_flushToDisk` 500 ms from now -/
def bset (t : Nat) (k : String) (v : Nat) (s : BinderState) : BinderState :=
  { s with cached := setAssoc s.cached k v,
           updateTimeout := some (s.nextTimer, t + 500),
           nextTimer := s.nextTimer + 1 }

/-- embedding of `ChannelStateBinder._flushToDisk` (lines 43-47): clear the
handle and write the whole cached record to the store -/
def flushToDisk (s : BinderState) : BinderState :=
  { s with updateTimeout := none, writes := s.writes ++ [s.cached] }

/-- a timer firing: it runs `_flushToDisk` only if it is still the pending
timer (`clearTimeout` removes a superseded timer before it can fire) -/
def timerFire (id : Nat) (s : BinderState) : BinderState :=
  match s.updateTimeout with
  | some (i, _) => if i = id then flushToDisk s else s
  | none => s

/-- embedding of `ChannelStateBinder._doClose` (lines 58-61):
`clearTimeout(this._updateTimeout)` then one final flush -/
def bclose (s : BinderState) : BinderState :=
  flushToDisk { s with updateTimeout := none }

inductive BEvent where
  | set (t : Nat) (k : String) (v : Nat)
  | fire (id : Nat)
  | close
deriving Repr, DecidableEq

/-- one binder event -/
def stepB (s : BinderState) : BEvent → BinderState
  | .set t k v => bset t k v s
  | .fire id => timerFire id s
  | .close => bclose s

/-- a sequence of binder events -/
def runB : BinderState → List BEvent → BinderState
  | s, [] => s
  | s, e :: rest => runB (stepB s e) rest

/-- the cached record after a sequence of `set` calls -/
def applyAll (c : List (String × Nat)) : List (Nat × String × Nat) → List (String × Nat)
  | [] => c
  | p :: rest => applyAll (setAssoc c p.2.1 p.2.2) rest

/-- the last value assigned to a key by a sequence of `set` calls -/
def lastValue : List (Nat × String × Nat) → String → Option Nat
  | [], _ => none
  | p :: rest, k =>
      match lastValue rest k with
      | some v => some v
      | none => if p.2.1 = k then some p.2.2 else none

/-- the event encoding of one `set` call -/
def setEvt (p : Nat × String × Nat) : BEvent := .set p.1 p.2.1 p.2.2

theorem runB_append (l1 l2 : List BEvent) :
    ∀ s, runB s (l1 ++ l2) = runB (runB s l1) l2 := by
  induction l1 with
  | nil => intro s; rfl
  | cons e rest ih => intro s; simp [runB, ih]

theorem lookupA_setAssoc (m : List (String × Nat)) (k0 k : String) (v0 : Nat) :
    lookupA (setAssoc m k0 v0) k = if k0 = k then some v0 else lookupA m k := by
  induction m with
  | nil => by_cases h : k0 = k <;> simp [setAssoc, lookupA, h]
  | cons p rest ih =>
      obtain ⟨k', v'⟩ := p
      by_cases h1 : k' = k0
      · subst h1
        by_cases h2 : k' = k <;> simp [setAssoc, lookupA, h2]
      · by_cases h2 : k0 = k
        · subst h2
          simp [setAssoc, lookupA, h1, ih]
        · simp [setAssoc, lookupA, h1, h2, ih]

/-- the record produced by a `set` sequence holds, for every key, the last
value assigned to it (and the prior record's value for untouched keys) -/
theorem applyAll_lookup (sets : List (Nat × String × Nat)) :
    ∀ (c : List (String × Nat)) (k : String),
      lookupA (applyAll c sets) k =
        match lastValue sets k with
        | some v => some v
        | none => lookupA c k := by
  induction sets with
  | nil => intro c k; simp [applyAll, lastValue]
  | cons p rest ih =>
      intro c k
      simp only [applyAll, lastValue, ih]
      rcases h : lastValue rest k with _ | v
      · by_cases hk : p.2.1 = k <;> simp [lookupA_setAssoc, hk]
      · rfl

/-- processing further `set` events while a timer scheduled by a previous
`set` is pending keeps exactly one timer pending (the most recently
scheduled) and performs no write -/
theorem runB_sets_aux (sets : List (Nat × String × Nat)) :
    ∀ (c : List (String × Nat)) (n d0 : Nat) (w : List (List (String × Nat))),
      ∃ dl, runB ⟨c, some (n, d0), n + 1, w⟩ (sets.map setEvt) =
        ⟨applyAll c sets, some (n + sets.length, dl), n + 1 + sets.length, w⟩ := by
  induction sets with
  | nil => intro c n d0 w; exact ⟨d0, by simp [runB, applyAll]⟩
  | cons p rest ih =>
      intro c n d0 w
      obtain ⟨dl, hdl⟩ := ih (setAssoc c p.2.1 p.2.2) (n + 1) (p.1 + 500) w
      exact ⟨dl, hdl.trans (by simp [applyAll]; omega)⟩

/-- processing a nonempty `set` sequence from an idle binder leaves the
pending timer equal to the most recently scheduled one and performs no
write -/
theorem runB_sets (p : Nat × String × Nat) (rest : List (Nat × String × Nat)) :
    ∀ (c : List (String × Nat)) (w : List (List (String × Nat))),
      ∃ dl, runB ⟨c, none, 0, w⟩ ((p :: rest).map setEvt) =
        ⟨applyAll c (p :: rest), some ((p :: rest).length - 1, dl),
          (p :: rest).length, w⟩ := by
  intro c w
  obtain ⟨dl, hdl⟩ := runB_sets_aux rest (setAssoc c p.2.1 p.2.2) 0 (p.1 + 500) w
  exact ⟨dl, hdl.trans (by simp [applyAll]; omega)⟩

/-- C6.  For the channel state binder: any number K >= 1 of `set` calls
falling within one debounce window (no timer fires between them: each `set`
clears the previous 500 ms timer, so only the last scheduled timer remains
pending) produce exactly one write to the store when that timer fires, and
that write contains, for every key, the last value set for it; a `close`
issued immediately after a `set` cancels the pending debounce timer and
performs exactly one final flush of the cached state (a stale firing of the
cancelled timer afterwards writes nothing). -/
theorem binder_debounce_flush (sets : List (Nat × String × Nat))
    (c0 : List (String × Nat)) (hK : sets ≠ []) :
    ((runB ⟨c0, none, 0, []⟩ (sets.map setEvt ++ [.fire (sets.length - 1)])).writes =
        [applyAll c0 sets] ∧
     (runB ⟨c0, none, 0, []⟩ (sets.map setEvt ++ [.fire (sets.length - 1)])).updateTimeout =
        none) ∧
    ((runB ⟨c0, none, 0, []⟩
        (sets.map setEvt ++ [.close, .fire (sets.length - 1)])).writes =
        [applyAll c0 sets] ∧
     (runB ⟨c0, none, 0, []⟩
        (sets.map setEvt ++ [.close, .fire (sets.length - 1)])).updateTimeout = none) ∧
    (∀ k v, lastValue sets k = some v → lookupA (applyAll c0 sets) k = some v) := by
  obtain ⟨p, rest, rfl⟩ : ∃ p rest, sets = p :: rest := by
    cases sets with
    | nil => exact absurd rfl hK
    | cons p rest => exact ⟨p, rest, rfl⟩
  obtain ⟨dl, hdl⟩ := runB_sets p rest c0 []
  refine ⟨⟨?_, ?_⟩, ⟨?_, ?_⟩, ?_⟩
  · rw [runB_append, hdl]
    simp [runB, stepB, timerFire, flushToDisk]
  · rw [runB_append, hdl]
    simp [runB, stepB, timerFire, flushToDisk]
  · rw [runB_append, hdl]
    simp [runB, stepB, timerFire, bclose, flushToDisk]
  · rw [runB_append, hdl]
    simp [runB, stepB, timerFire, bclose, flushToDisk]
  · intro k v h
    rw [applyAll_lookup, h]

/-- C6 witness: two `set` calls on the same key 10 ms apart followed by the
surviving timer firing write once, with the second value winning. -/
theorem binder_debounce_flush_witness :
    (runB ⟨[], none, 0, []⟩
        ([(0, "k", 1), (10, "k", 2)].map setEvt ++
          [.fire ([(0, "k", 1), (10, "k", 2)].length - 1)])).writes =
      [applyAll [] [(0, "k", 1), (10, "k", 2)]] ∧
    (runB ⟨[], none, 0, []⟩
        ([(0, "k", 1), (10, "k", 2)].map setEvt ++
          [.fire ([(0, "k", 1), (10, "k", 2)].length - 1)])).updateTimeout = none :=
  (binder_debounce_flush [(0, "k", 1), (10, "k", 2)] [] (by simp)).1

/-! ## Client tier connection (src/lib/tiers/tier_connections.js, `ClientConnection`)

The client state carries the `_retryAttempts` budget (an integer, since
`open()` decrements before checking), the `_outgoingBuffer`, and
instrumentation: the number of connection attempts made, the messages
flushed on successful connects, and every `failed` signal emitted together
with the buffer it carried.

A run is driven by a list of connection outcomes: `.fail` (the socket errors
or times out during `open()`, source lines 141-165) or `.connect d` (the
socket opens, `_onConnected` runs — flushing the outgoing buffer and
resetting `_ratelimitTimer` — and the connection then drops after `d`
milliseconds with `_closeOk` false, entering `_onConnectionLost`, source
lines 37-69). -/

structure CState where
  /-- the `_retryAttempts` budget -/
  retryAttempts : Int
  /-- the `_outgoingBuffer` of messages sent while disconnected -/
  outgoingBuffer : List Nat
  /-- instrumentation: messages flushed to the socket on connects, in order -/
  sentMsgs : List Nat
  /-- instrumentation: number of connection attempts performed by `open()` -/
  attempts : Nat
  /-- instrumentation: the buffers carried by emitted `failed` events -/
  failedSignals : List (List Nat)
deriving Repr, DecidableEq

/-- the client state right after construction, with a pending buffer `B` -/
def CState.fresh (B : List Nat) : CState :=
  { retryAttempts := 3, outgoingBuffer := B, sentMsgs := [],
    attempts := 0, failedSignals := [] }

inductive CEvent where
  | fail
  | connect (sessionMs : Nat)
deriving Repr, DecidableEq

/-- the head of `open()` (line 139): `this._retryAttempts--` before the
connection attempt; `attempts` counts the attempt -/
def openAttempt (s : CState) : CState :=
  { s with retryAttempts := s.retryAttempts - 1, attempts := s.attempts + 1 }

/-- the buffer flush in `_onConnected` (lines 87-94): every buffered message
is sent and the buffer emptied -/
def onConnectedFlush (s : CState) : CState :=
  { s with sentMsgs := s.sentMsgs ++ s.outgoingBuffer, outgoingBuffer := [] }

/-- emission of `failed` carrying `this._outgoingBuffer` -/
def emitFailed (s : CState) : CState :=
  { s with failedSignals := s.failedSignals ++ [s.outgoingBuffer] }

/-- embedding of `ClientConnection.open()` (lines 138-166) driven by the
outcome list: decrement the budget and attempt; on failure retry while
`_retryAttempts > 0`, otherwise emit `failed` with the buffer; on success
run `_onConnected` and, when the connection later drops, `_onConnectionLost`
(lines 37-69): a session shorter than 60000 ms consumes the budget (retrying
only while `_retryAttempts > 0`, else emitting `failed`), a session of 60000
ms or more resets the budget to 3 and reopens immediately. -/
def clientOpen : CState → List CEvent → CState
  | s, [] => openAttempt s
  | s, .fail :: rest =>
      let s1 := openAttempt s
      if s1.retryAttempts > 0 then clientOpen s1 rest else emitFailed s1
  | s, .connect d :: rest =>
      let s2 := onConnectedFlush (openAttempt s)
      if d < 60000 then
        if s2.retryAttempts > 0 then clientOpen s2 rest else emitFailed s2
      else clientOpen { s2 with retryAttempts := 3 } rest

/-- embedding of `ClientConnection._onConnectionLost` (lines 37-69) as a
standalone function of the session length and the state at the drop -/
def onConnectionLost (d : Nat) (s : CState) (evs : List CEvent) : CState :=
  if d < 60000 then
    if s.retryAttempts > 0 then clientOpen s evs else emitFailed s
  else clientOpen { s with retryAttempts := 3 } evs

/-- the `connect` case of `clientOpen` is exactly `_onConnected` followed by
`_onConnectionLost` -/
theorem clientOpen_connect (s : CState) (d : Nat) (rest : List CEvent) :
    clientOpen s (.connect d :: rest) =
      onConnectionLost d (onConnectedFlush (openAttempt s)) rest := by
  rfl

/-- C3.  Reconnect budget of the client connection.  First part: starting
fresh with outgoing buffer `B`, if the connection fails immediately on every
attempt, the client performs exactly 3 connection attempts (even though a
4th failure outcome is available in the driving list), emits exactly one
`failed` signal carrying the entire untouched outgoing buffer `B`, and
flushes nothing.  Second part: whenever a connected session lasted
`d ≥ 60000` ms before the socket dropped, `_onConnectionLost` resets the
retry budget to 3 and reopens immediately. -/
theorem client_reconnect_budget (B : List Nat) (d : Nat) (hd : 60000 ≤ d) :
    ((clientOpen (CState.fresh B) [.fail, .fail, .fail, .fail]).attempts = 3 ∧
     (clientOpen (CState.fresh B) [.fail, .fail, .fail, .fail]).failedSignals = [B] ∧
     (clientOpen (CState.fresh B) [.fail, .fail, .fail, .fail]).outgoingBuffer = B ∧
     (clientOpen (CState.fresh B) [.fail, .fail, .fail, .fail]).sentMsgs = []) ∧
    (∀ (s : CState) (evs : List CEvent),
      onConnectionLost d s evs = clientOpen { s with retryAttempts := 3 } evs) := by
  constructor
  · refine ⟨?_, ?_, ?_, ?_⟩ <;>
      simp [clientOpen, openAttempt, emitFailed, CState.fresh]
  · intro s evs
    unfold onConnectionLost
    rw [if_neg (by omega)]

/-- C3 witness at buffer `[7]` and a 60-second session. -/
theorem client_reconnect_budget_witness :
    (clientOpen (CState.fresh [7]) [.fail, .fail, .fail, .fail]).attempts = 3 ∧
    (clientOpen (CState.fresh [7]) [.fail, .fail, .fail, .fail]).failedSignals = [[7]] ∧
    (clientOpen (CState.fresh [7]) [.fail, .fail, .fail, .fail]).outgoingBuffer = [7] ∧
    (clientOpen (CState.fresh [7]) [.fail, .fail, .fail, .fail]).sentMsgs = [] :=
  (client_reconnect_budget [7] 60000 (by omega)).1

/-! ## Server tier connection (src/lib/tiers/tier_connections.js, `ServerConnection`)

The server keeps a table `_connections` from peer identity to connection
record.  Each accepted socket gets a fresh record (closed over by its
message handler); on successful authentication the record is stored in the
table under the peer identity (the closure and the table then alias the same
record, which the embedding preserves by re-reading the record from the
table at the end of a step).  Sockets are identified by numbers; `socketId =
none` models a `null` socket field.

A frame is either unparseable JSON (`malformed`) or a parsed JSON message
with optional `control`, `identity` and `token` fields; `identity = none`
models both an absent field and a non-string value (the source checks
`typeof msg.identity != 'string'`), `token = none` models `undefined`.  The
`setAuthAccepts` oracle carried by a frame is the return value of the
platform's `setAuthToken` call for the one-time pairing path, which lives
outside the embedded core; every theorem holds for both oracle answers.
When the platform accepts, the configured token becomes the one sent. -/

structure Msg where
  control : Option String
  payload : Nat
deriving Repr, DecidableEq

/-- tagging in `_sendTo` / client `send`: a message without a `control`
field gets `control = 'data'` before hitting the wire -/
def tagData (m : Msg) : Msg :=
  match m.control with
  | none => { m with control := some "data" }
  | some _ => m

structure JMsg where
  control : Option String
  identity : Option String
  token : Option String
  payload : Nat
deriving Repr, DecidableEq

inductive Frame where
  | malformed
  | recv (m : JMsg) (setAuthAccepts : Bool)
deriving Repr, DecidableEq

structure ConnRecord where
  /-- the `socket` field (`none` = `null`) -/
  socketId : Option Nat
  dataOk : Bool
  closeOk : Bool
  /-- whether a `closeCallback` is installed (`false` = `null`) -/
  closeCallback : Bool
  /-- whether the keepalive `pingTimeout` interval is armed (`-1` = `false`) -/
  pingTimer : Bool
  outgoingBuffer : List Msg
  /-- the `identity` field, set on successful authentication -/
  identity : Option String
deriving Repr, DecidableEq

/-- the fresh record `_handleConnection` builds for an accepted socket
(lines 224-232): unauthenticated, empty buffer -/
def ConnRecord.freshFor (sock : Nat) : ConnRecord :=
  { socketId := some sock, dataOk := false, closeOk := false,
    closeCallback := false, pingTimer := false, outgoingBuffer := [],
    identity := none }

structure ServerState where
  /-- the `_connections` table: identity to connection record -/
  connections : List (String × ConnRecord)
  /-- the platform's configured auth token (`getAuthToken()`), `none` = undefined -/
  authToken : Option String
deriving Repr, DecidableEq

def lookupConn : List (String × ConnRecord) → String → Option ConnRecord
  | [], _ => none
  | (k', c) :: rest, k => if k' = k then some c else lookupConn rest k

def replaceConn : List (String × ConnRecord) → String → ConnRecord → List (String × ConnRecord)
  | [], _, _ => []
  | (k', c') :: rest, k, c =>
      if k' = k then (k, c) :: rest else (k', c') :: replaceConn rest k c

/-- assignment `this._connections[identity] = connection` -/
def insertConn (tbl : List (String × ConnRecord)) (k : String) (c : ConnRecord) :
    List (String × ConnRecord) :=
  match lookupConn tbl k with
  | some _ => replaceConn tbl k c
  | none => tbl ++ [(k, c)]

/-- embedding of `ServerConnection._findConnection` (lines 216-221): the
table record whose socket is this socket, if any -/
def findConnBySocket : List (String × ConnRecord) → Nat → Option ConnRecord
  | [], _ => none
  | (_, c) :: rest, sock =>
      if c.socketId = some sock then some c else findConnBySocket rest sock

inductive Effect where
  | sendFrame (sock : Nat) (m : Msg)
  | sendCtrl (sock : Nat) (c : String)
  | terminate (sock : Nat)
  | clearPing (identity : String)
  | startPing (sock : Nat)
  | emitConnected (identity : String)
  | logLine (s : String)
deriving Repr, DecidableEq

/-- embedding of `ServerConnection._sendTo` (lines 412-424): unknown
destination throws (before touching any state); a live, authenticated
socket gets the tagged message immediately; otherwise the message is pushed
onto that identity's outgoing buffer -/
def sendTo (st : ServerState) (m : Msg) (dest : String) :
    Except String (ServerState × List Effect) :=
  match lookupConn st.connections dest with
  | none => .error "Invalid destination for server message"
  | some c =>
      match c.socketId, c.dataOk with
      | some sock, true => .ok (st, [.sendFrame sock (tagData m)])
      | _, _ =>
          let c2 : ConnRecord := { c with outgoingBuffer := c.outgoingBuffer ++ [m] }
          .ok ({ st with connections := replaceConn st.connections dest c2 }, [])

/-- the broadcast loop of `send` (lines 432-433): `_sendTo` once per known
identity, in table order -/
def broadcastAux (m : Msg) : ServerState → List String →
    Except String (ServerState × List Effect)
  | st, [] => .ok (st, [])
  | st, id :: rest =>
      (sendTo st m id).bind (fun r =>
        (broadcastAux m r.1 rest).map (fun r2 => (r2.1, r.2 ++ r2.2)))

/-- embedding of `ServerConnection.send` (lines 426-434): targeted when `to`
is given, otherwise one `_sendTo` per known identity -/
def sendServer (st : ServerState) (m : Msg) (dest : Option String) :
    Except String (ServerState × List Effect) :=
  match dest with
  | some t => sendTo st m t
  | none => broadcastAux m st (st.connections.map Prod.fst)

/-- embedding of `ServerConnection.sendMany` (lines 436-438) at a fixed
destination: `send` once per buffered message, in buffer order -/
def sendManyTo : ServerState → List Msg → String →
    Except String (ServerState × List Effect)
  | st, [], _ => .ok (st, [])
  | st, m :: rest, dest =>
      (sendTo st m dest).bind (fun r =>
        (sendManyTo r.1 rest dest).map (fun r2 => (r2.1, r.2 ++ r2.2)))

/-- the outcome of one frame on one socket: new table and token, the record
the socket's closure now sees, wire/timer effects, messages emitted to the
application layer (`'message'` events, paired with `connection.identity`),
and whether this frame was accepted as a successful authentication -/
structure StepOut where
  server : ServerState
  conn : ConnRecord
  effects : List Effect
  emitted : List (JMsg × Option String)
  acceptedAuth : Bool
deriving Repr, DecidableEq

/-- the pre-authentication part of the message handler (lines 250-306).
`set-auth-token`: with a truthy token accepted by the platform, store it,
reply `auth-token-ok` and reset the record (socket nulled, `closeOk` set);
otherwise reply `auth-token-error` with the same resets.  Any other frame
that is not an `auth` with a string identity and a token equal to the
configured (defined) token terminates the socket.  A valid `auth` promotes
the record: `dataOk = true`, identity recorded, any previous record under
that identity has its socket terminated and its keepalive interval cleared,
the record is stored in the table with the keepalive armed, the previous
record's outgoing buffer is flushed through `sendMany`, and `connected` is
emitted. -/
def preAuthStep (st : ServerState) (conn : ConnRecord) (sock : Nat)
    (m : JMsg) (acc : Bool) : StepOut :=
  if m.control = some "set-auth-token" then
    match m.token with
    | some tok =>
        if tok ≠ "" ∧ acc = true then
          ⟨{ st with authToken := some tok },
           { conn with socketId := none, closeOk := true, dataOk := false,
                       closeCallback := false },
           [.logLine "Received auth token from client", .sendCtrl sock "auth-token-ok"],
           [], false⟩
        else
          ⟨st,
           { conn with socketId := none, closeOk := true, dataOk := false,
                       closeCallback := false },
           [.logLine "Invalid initial setup message", .sendCtrl sock "auth-token-error"],
           [], false⟩
    | none =>
        ⟨st,
         { conn with socketId := none, closeOk := true, dataOk := false,
                     closeCallback := false },
         [.logLine "Invalid initial setup message", .sendCtrl sock "auth-token-error"],
         [], false⟩
  else
    match m.control, m.identity, m.token, st.authToken with
    | some "auth", some id, some tok, some cfg =>
        if tok = cfg then
          let old := lookupConn st.connections id
          let termEffects :=
            match old with
            | some o =>
                (match o.socketId with
                 | some os => [Effect.terminate os]
                 | none => []) ++
                (if o.pingTimer then [Effect.clearPing id] else [])
            | none => []
          let conn2 : ConnRecord :=
            { conn with dataOk := true, identity := some id, pingTimer := true }
          let st1 : ServerState :=
            { st with connections := insertConn st.connections id conn2 }
          let flush :=
            match old with
            | some o => sendManyTo st1 o.outgoingBuffer id
            | none => .ok (st1, [])
          let afterFlush : ServerState × ConnRecord × List Effect :=
            match flush with
            | .ok r =>
                (r.1,
                 (match lookupConn r.1.connections id with
                  | some c => c
                  | none => conn2),
                 r.2)
            | .error _ => (st1, conn2, [])
          ⟨afterFlush.1, afterFlush.2.1,
           [.logLine "Client successfully authenticated"] ++ termEffects ++
             [.startPing sock] ++ afterFlush.2.2 ++ [.emitConnected id],
           [], true⟩
        else
          ⟨st, conn, [.logLine "Invalid authentication message", .terminate sock],
           [], false⟩
    | _, _, _, _ =>
        ⟨st, conn, [.logLine "Invalid authentication message", .terminate sock],
         [], false⟩

/-- the post-authentication part of the message handler (lines 307-320):
drop the frame if the socket is no longer in the table (robustness check,
which is how a superseded socket is silenced), ignore any control other
than `data`, and otherwise strip `control` and emit `message` -/
def postAuthStep (st : ServerState) (conn : ConnRecord) (sock : Nat)
    (m : JMsg) : StepOut :=
  match findConnBySocket st.connections sock with
  | none => ⟨st, conn, [], [], false⟩
  | some _ =>
      if m.control = some "data" then
        ⟨st, conn, [], [({ m with control := none }, conn.identity)], false⟩
      else
        ⟨st, conn, [.logLine "Invalid control message"], [], false⟩

/-- one frame arriving on one socket's message handler (lines 241-321) -/
def serverStep (st : ServerState) (conn : ConnRecord) (sock : Nat) :
    Frame → StepOut
  | .malformed => ⟨st, conn, [.logLine "Error parsing client message"], [], false⟩
  | .recv m acc =>
      if conn.dataOk = false then preAuthStep st conn sock m acc
      else postAuthStep st conn sock m

/-- a frame sequence on one socket, recording for each frame whether it was
accepted as authentication, whether it was delivered to the application
layer, and the token configured when the frame arrived -/
def runFrames (st : ServerState) (conn : ConnRecord) (sock : Nat) :
    List Frame → List (Bool × Bool × Option String)
  | [] => []
  | f :: rest =>
      let o := serverStep st conn sock f
      (o.acceptedAuth, !o.emitted.isEmpty, st.authToken) ::
        runFrames o.server o.conn sock rest

/-- the pre-authentication handler emits nothing to the application layer
(every branch returns before `this.emit('message', ...)`, source line 306),
and a step that was not accepted as authentication leaves the record
unauthenticated or untouched -/
theorem preAuthStep_cases (st : ServerState) (conn : ConnRecord) (sock : Nat)
    (m : JMsg) (acc : Bool) :
    (preAuthStep st conn sock m acc).emitted = [] ∧
    ((preAuthStep st conn sock m acc).acceptedAuth = true ∨
     (preAuthStep st conn sock m acc).conn.dataOk = false ∨
     (preAuthStep st conn sock m acc).conn = conn) := by
  unfold preAuthStep
  repeat' split
  all_goals simp

/-- the post-authentication handler never accepts an authentication -/
theorem postAuthStep_not_accepted (st : ServerState) (conn : ConnRecord)
    (sock : Nat) (m : JMsg) :
    (postAuthStep st conn sock m).acceptedAuth = false := by
  unfold postAuthStep
  repeat' split
  all_goals rfl

/-- an unauthenticated socket never gets a frame delivered to the
application layer in a single step -/
theorem serverStep_preAuth_emitted (st : ServerState) (conn : ConnRecord)
    (sock : Nat) (f : Frame) (h : conn.dataOk = false) :
    (serverStep st conn sock f).emitted = [] := by
  cases f with
  | malformed => rfl
  | recv m acc =>
      simp only [serverStep, h, if_pos]
      exact (preAuthStep_cases st conn sock m acc).1

/-- a step on an unauthenticated socket that is not an accepted
authentication leaves the socket unauthenticated -/
theorem serverStep_preAuth_unauth (st : ServerState) (conn : ConnRecord)
    (sock : Nat) (f : Frame) (h : conn.dataOk = false)
    (hacc : (serverStep st conn sock f).acceptedAuth = false) :
    (serverStep st conn sock f).conn.dataOk = false := by
  cases f with
  | malformed => exact h
  | recv m acc =>
      simp only [serverStep, h, if_pos] at hacc ⊢
      rcases (preAuthStep_cases st conn sock m acc).2 with h1 | h1 | h1
      · rw [h1] at hacc; cases hacc
      · exact h1
      · rw [h1]; exact h

/-- acceptance happens only on an `auth` frame with a string identity and a
defined token equal to the configured token of the moment -/
theorem serverStep_accepted_shape (st : ServerState) (conn : ConnRecord)
    (sock : Nat) (f : Frame)
    (h : (serverStep st conn sock f).acceptedAuth = true) :
    ∃ m acc tok, f = .recv m acc ∧ m.control = some "auth" ∧
      m.identity.isSome = true ∧ m.token = some tok ∧ st.authToken = some tok := by
  cases f with
  | malformed => simp [serverStep] at h
  | recv m acc =>
      refine ⟨m, acc, ?_⟩
      cases hdo : conn.dataOk with
      | false =>
          simp only [serverStep, hdo, reduceCtorEq, if_pos] at h
          unfold preAuthStep at h
          split at h
          · split at h
            · split at h <;> cases h
            · cases h
          · split at h
            · rename_i id tok cfg hc hi ht hcfg
              split at h
              · rename_i htok
                exact ⟨tok, rfl, hc, by rw [hi]; rfl, ht, by rw [hcfg, htok]⟩
              · cases h
            · cases h
      | true =>
          simp [serverStep, hdo, postAuthStep_not_accepted] at h

/-- C2.  Auth gate, server role: for every socket, every table state and
every frame sequence arriving on that socket's message handler while it is
unauthenticated, no data frame is delivered to the application layer (index
`i` with the delivered flag set) unless some strictly earlier frame `j` was
accepted as authentication — and that frame is an `auth` control frame with
a string identity and a defined token equal to the token configured at that
moment. -/
theorem server_auth_gate (fs : List Frame) :
    ∀ (st : ServerState) (conn : ConnRecord) (sock : Nat),
      conn.dataOk = false →
      ∀ i p, (runFrames st conn sock fs).get? i = some p → p.2.1 = true →
        ∃ j q, j < i ∧ (runFrames st conn sock fs).get? j = some q ∧ q.1 = true ∧
          ∃ m acc tok, fs.get? j = some (Frame.recv m acc) ∧
            m.control = some "auth" ∧ m.identity.isSome = true ∧
            m.token = some tok ∧ q.2.2 = some tok := by
  induction fs with
  | nil => intro st conn sock h i p hp hd; simp [runFrames] at hp
  | cons f rest ih =>
      intro st conn sock h i p hp hd
      have hemp : (serverStep st conn sock f).emitted = [] :=
        serverStep_preAuth_emitted st conn sock f h
      cases i with
      | zero =>
          simp only [runFrames, List.get?_cons_zero, Option.some.injEq] at hp
          subst hp
          simp [hemp] at hd
      | succ i' =>
          by_cases ha : (serverStep st conn sock f).acceptedAuth = true
          · obtain ⟨m, acc, tok, hf, hc, hid, ht, hcfg⟩ :=
              serverStep_accepted_shape st conn sock f ha
            refine ⟨0, ((serverStep st conn sock f).acceptedAuth,
                !(serverStep st conn sock f).emitted.isEmpty, st.authToken),
              Nat.succ_pos _, by simp [runFrames], ha, m, acc, tok, ?_, hc, hid,
              ht, hcfg⟩
            simp [hf]
          · have ha' : (serverStep st conn sock f).acceptedAuth = false := by
              revert ha; cases (serverStep st conn sock f).acceptedAuth <;> simp
            have hconn : (serverStep st conn sock f).conn.dataOk = false :=
              serverStep_preAuth_unauth st conn sock f h ha'
            have hp' : (runFrames (serverStep st conn sock f).server
                (serverStep st conn sock f).conn sock rest).get? i' = some p := by
              simpa only [runFrames, List.get?_cons_succ] using hp
            obtain ⟨j, q, hj, hq, hq1, m, acc, tok, hfj, hc, hid, ht, hcfg⟩ :=
              ih (serverStep st conn sock f).server (serverStep st conn sock f).conn
                sock hconn i' p hp' hd
            exact ⟨j + 1, q, Nat.succ_lt_succ hj,
              by simpa only [runFrames, List.get?_cons_succ] using hq, hq1,
              m, acc, tok, by simpa using hfj, hc, hid, ht, hcfg⟩

/-- C2 witness: a socket that authenticates with the configured token "t"
and then sends one data frame has the data delivered at index 1, and the
theorem produces the accepting auth frame at index 0. -/
theorem server_auth_gate_witness :
    ∃ j q, j < 1 ∧
      (runFrames ⟨[], some "t"⟩ (ConnRecord.freshFor 7) 7
          [.recv ⟨some "auth", some "phone", some "t", 0⟩ true,
           .recv ⟨some "data", none, none, 5⟩ true]).get? j = some q ∧
      q.1 = true ∧
      ∃ m acc tok,
        [Frame.recv ⟨some "auth", some "phone", some "t", 0⟩ true,
         Frame.recv ⟨some "data", none, none, 5⟩ true].get? j =
          some (Frame.recv m acc) ∧
        m.control = some "auth" ∧ m.identity.isSome = true ∧
        m.token = some tok ∧ q.2.2 = some tok :=
  server_auth_gate
    [.recv ⟨some "auth", some "phone", some "t", 0⟩ true,
     .recv ⟨some "data", none, none, 5⟩ true]
    ⟨[], some "t"⟩ (ConnRecord.freshFor 7) 7 rfl 1
    (false, true, some "t") (by decide) (by decide)

theorem lookup_replaceConn_self (k : String) (c : ConnRecord) :
    ∀ (tbl : List (String × ConnRecord)) (c0 : ConnRecord),
      lookupConn tbl k = some c0 →
      lookupConn (replaceConn tbl k c) k = some c := by
  intro tbl
  induction tbl with
  | nil => intro c0 h; simp [lookupConn] at h
  | cons q rest ih =>
      intro c0 h
      obtain ⟨k', c'⟩ := q
      by_cases hk : k' = k
      · simp [replaceConn, lookupConn, hk]
      · simp only [lookupConn, if_neg hk] at h
        simp only [replaceConn, if_neg hk, lookupConn, if_neg hk]
        exact ih c0 h

theorem lookupConn_append_of_none (k : String) :
    ∀ (tbl l2 : List (String × ConnRecord)),
      lookupConn tbl k = none →
      lookupConn (tbl ++ l2) k = lookupConn l2 k := by
  intro tbl
  induction tbl with
  | nil => intro l2 _; rfl
  | cons q rest ih =>
      intro l2 h
      obtain ⟨k', c'⟩ := q
      by_cases hk : k' = k
      · simp [lookupConn, hk] at h
      · simp only [lookupConn, if_neg hk] at h
        simp only [List.cons_append, lookupConn, if_neg hk]
        exact ih l2 h

theorem lookup_insertConn_self (tbl : List (String × ConnRecord)) (k : String)
    (c : ConnRecord) : lookupConn (insertConn tbl k c) k = some c := by
  unfold insertConn
  cases h : lookupConn tbl k with
  | some c0 => exact lookup_replaceConn_self k c tbl c0 h
  | none =>
      rw [lookupConn_append_of_none k tbl [(k, c)] h]
      simp [lookupConn]

/-- flushing a buffer to a live, authenticated connection sends every
message immediately, tagged, in buffer order, and leaves the table
untouched -/
theorem sendManyTo_live (dest : String) (sock : Nat) :
    ∀ (L : List Msg) (st : ServerState) (c : ConnRecord),
      lookupConn st.connections dest = some c → c.socketId = some sock →
      c.dataOk = true →
      sendManyTo st L dest =
        .ok (st, L.map (fun m => Effect.sendFrame sock (tagData m))) := by
  intro L
  induction L with
  | nil => intro st c _ _ _; rfl
  | cons m rest ih =>
      intro st c h1 h2 h3
      have hsend : sendTo st m dest = .ok (st, [Effect.sendFrame sock (tagData m)]) := by
        simp [sendTo, h1, h2, h3]
      simp [sendManyTo, hsend, Except.bind, ih st c h1 h2 h3, Except.map]

/-- the messages an effect list carries to socket `sock` -/
def sentOn (sock : Nat) : Effect → Option Msg
  | .sendFrame s m => if s = sock then some m else none
  | _ => none

/-- C5.  When a socket `sock` (fresh record `conn`, unauthenticated)
successfully authenticates under identity `I` (auth frame with string
identity `I` and the configured token): the record is promoted to
`dataOk = true` with the identity recorded, it is registered in the
connection table under `I`, the previous record under `I` has its socket
(if any) forcibly terminated and its keepalive timer (if armed) cleared,
the new record's keepalive ping timer is armed, and every message buffered
for `I` is sent on the new socket, tagged, in buffer order. -/
theorem server_auth_promotion (st : ServerState) (conn old : ConnRecord)
    (sock p : Nat) (I tok : String) (acc : Bool)
    (hdo : conn.dataOk = false)
    (hsock : conn.socketId = some sock)
    (htok : st.authToken = some tok)
    (hold : lookupConn st.connections I = some old) :
    (serverStep st conn sock (.recv ⟨some "auth", some I, some tok, p⟩ acc)).acceptedAuth = true ∧
    (serverStep st conn sock (.recv ⟨some "auth", some I, some tok, p⟩ acc)).conn.dataOk = true ∧
    (serverStep st conn sock (.recv ⟨some "auth", some I, some tok, p⟩ acc)).conn.identity = some I ∧
    (serverStep st conn sock (.recv ⟨some "auth", some I, some tok, p⟩ acc)).conn.pingTimer = true ∧
    lookupConn (serverStep st conn sock (.recv ⟨some "auth", some I, some tok, p⟩ acc)).server.connections I =
      some (serverStep st conn sock (.recv ⟨some "auth", some I, some tok, p⟩ acc)).conn ∧
    (∀ os, old.socketId = some os →
      Effect.terminate os ∈ (serverStep st conn sock (.recv ⟨some "auth", some I, some tok, p⟩ acc)).effects) ∧
    (old.pingTimer = true →
      Effect.clearPing I ∈ (serverStep st conn sock (.recv ⟨some "auth", some I, some tok, p⟩ acc)).effects) ∧
    (serverStep st conn sock (.recv ⟨some "auth", some I, some tok, p⟩ acc)).effects.filterMap (sentOn sock) =
      old.outgoingBuffer.map tagData := by
  have hc2 : lookupConn
      (insertConn st.connections I
        ⟨conn.socketId, true, conn.closeOk, conn.closeCallback, true,
         conn.outgoingBuffer, some I⟩) I =
      some ⟨conn.socketId, true, conn.closeOk, conn.closeCallback, true,
        conn.outgoingBuffer, some I⟩ :=
    lookup_insertConn_self st.connections I _
  have hflush := sendManyTo_live I sock old.outgoingBuffer
    ⟨insertConn st.connections I
        ⟨conn.socketId, true, conn.closeOk, conn.closeCallback, true,
         conn.outgoingBuffer, some I⟩, st.authToken⟩
    ⟨conn.socketId, true, conn.closeOk, conn.closeCallback, true,
     conn.outgoingBuffer, some I⟩
    hc2 (by simpa using hsock) rfl
  rw [htok] at hflush
  rcases hos : old.socketId with _ | os <;> cases hpt : old.pingTimer <;>
    simp [serverStep, preAuthStep, hdo, htok, hold, hflush, hc2, hos, hpt,
      sentOn, List.filterMap_append, tagData] <;>
    (generalize old.outgoingBuffer = L
     induction L with
     | nil => rfl
     | cons m rest ih => simp [sentOn, tagData, ih])

/-- C5 witness: identity "phone" with a waiting offline record (old socket
4, keepalive armed, two buffered messages) superseded by socket 7. -/
theorem server_auth_promotion_witness :
    (serverStep
        ⟨[("phone", ⟨some 4, false, false, false, true,
            [⟨none, 1⟩, ⟨none, 2⟩], some "phone"⟩)], some "t"⟩
        (ConnRecord.freshFor 7) 7
        (.recv ⟨some "auth", some "phone", some "t", 0⟩ true)).acceptedAuth = true ∧
    (serverStep
        ⟨[("phone", ⟨some 4, false, false, false, true,
            [⟨none, 1⟩, ⟨none, 2⟩], some "phone"⟩)], some "t"⟩
        (ConnRecord.freshFor 7) 7
        (.recv ⟨some "auth", some "phone", some "t", 0⟩ true)).conn.dataOk = true ∧
    (serverStep
        ⟨[("phone", ⟨some 4, false, false, false, true,
            [⟨none, 1⟩, ⟨none, 2⟩], some "phone"⟩)], some "t"⟩
        (ConnRecord.freshFor 7) 7
        (.recv ⟨some "auth", some "phone", some "t", 0⟩ true)).conn.identity = some "phone" ∧
    (serverStep
        ⟨[("phone", ⟨some 4, false, false, false, true,
            [⟨none, 1⟩, ⟨none, 2⟩], some "phone"⟩)], some "t"⟩
        (ConnRecord.freshFor 7) 7
        (.recv ⟨some "auth", some "phone", some "t", 0⟩ true)).conn.pingTimer = true ∧
    lookupConn (serverStep
        ⟨[("phone", ⟨some 4, false, false, false, true,
            [⟨none, 1⟩, ⟨none, 2⟩], some "phone"⟩)], some "t"⟩
        (ConnRecord.freshFor 7) 7
        (.recv ⟨some "auth", some "phone", some "t", 0⟩ true)).server.connections "phone" =
      some (serverStep
        ⟨[("phone", ⟨some 4, false, false, false, true,
            [⟨none, 1⟩, ⟨none, 2⟩], some "phone"⟩)], some "t"⟩
        (ConnRecord.freshFor 7) 7
        (.recv ⟨some "auth", some "phone", some "t", 0⟩ true)).conn ∧
    (∀ os, (⟨some 4, false, false, false, true,
        [⟨none, 1⟩, ⟨none, 2⟩], some "phone"⟩ : ConnRecord).socketId = some os →
      Effect.terminate os ∈ (serverStep
        ⟨[("phone", ⟨some 4, false, false, false, true,
            [⟨none, 1⟩, ⟨none, 2⟩], some "phone"⟩)], some "t"⟩
        (ConnRecord.freshFor 7) 7
        (.recv ⟨some "auth", some "phone", some "t", 0⟩ true)).effects) ∧
    ((⟨some 4, false, false, false, true,
        [⟨none, 1⟩, ⟨none, 2⟩], some "phone"⟩ : ConnRecord).pingTimer = true →
      Effect.clearPing "phone" ∈ (serverStep
        ⟨[("phone", ⟨some 4, false, false, false, true,
            [⟨none, 1⟩, ⟨none, 2⟩], some "phone"⟩)], some "t"⟩
        (ConnRecord.freshFor 7) 7
        (.recv ⟨some "auth", some "phone", some "t", 0⟩ true)).effects) ∧
    (serverStep
        ⟨[("phone", ⟨some 4, false, false, false, true,
            [⟨none, 1⟩, ⟨none, 2⟩], some "phone"⟩)], some "t"⟩
        (ConnRecord.freshFor 7) 7
        (.recv ⟨some "auth", some "phone", some "t", 0⟩ true)).effects.filterMap (sentOn 7) =
      [⟨none, 1⟩, ⟨none, 2⟩].map tagData :=
  server_auth_promotion
    ⟨[("phone", ⟨some 4, false, false, false, true,
        [⟨none, 1⟩, ⟨none, 2⟩], some "phone"⟩)], some "t"⟩
    (ConnRecord.freshFor 7)
    ⟨some 4, false, false, false, true, [⟨none, 1⟩, ⟨none, 2⟩], some "phone"⟩
    7 0 "phone" "t" true rfl rfl rfl (by decide)

theorem replaceConn_keys (k : String) (c : ConnRecord) :
    ∀ (tbl : List (String × ConnRecord)),
      (replaceConn tbl k c).map Prod.fst = tbl.map Prod.fst := by
  intro tbl
  induction tbl with
  | nil => rfl
  | cons q rest ih =>
      obtain ⟨k', c'⟩ := q
      by_cases hk : k' = k
      · simp [replaceConn, hk]
      · simp [replaceConn, hk, ih]

theorem lookupConn_of_mem_keys (k : String) :
    ∀ (tbl : List (String × ConnRecord)),
      k ∈ tbl.map Prod.fst → ∃ c, lookupConn tbl k = some c := by
  intro tbl
  induction tbl with
  | nil => intro h; simp at h
  | cons q rest ih =>
      intro h
      obtain ⟨k', c'⟩ := q
      by_cases hk : k' = k
      · exact ⟨c', by simp [lookupConn, hk]⟩
      · simp only [List.map_cons, List.mem_cons] at h
        rcases h with h | h
        · exact absurd h.symm hk
        · obtain ⟨c, hc⟩ := ih h
          exact ⟨c, by simp [lookupConn, hk, hc]⟩

/-- on a known destination, `_sendTo` never throws and preserves the set of
known identities (it either sends immediately or pushes onto that
identity's buffer) -/
theorem sendTo_ok_of_lookup (st : ServerState) (m : Msg) (dest : String)
    (c : ConnRecord) (h : lookupConn st.connections dest = some c) :
    ∃ r, sendTo st m dest = .ok r ∧
      r.1.connections.map Prod.fst = st.connections.map Prod.fst := by
  unfold sendTo
  rw [h]
  rcases hs : c.socketId with _ | sock <;> cases hd : c.dataOk <;>
    simp only [hs, hd]
  · exact ⟨_, rfl, replaceConn_keys dest _ st.connections⟩
  · exact ⟨_, rfl, replaceConn_keys dest _ st.connections⟩
  · exact ⟨_, rfl, replaceConn_keys dest _ st.connections⟩
  · exact ⟨_, rfl, rfl⟩

/-- the broadcast loop succeeds whenever every identity it visits is a key
of the table, and preserves the key set -/
theorem broadcastAux_ok (m : Msg) :
    ∀ (ks : List String) (st : ServerState),
      (∀ k ∈ ks, k ∈ st.connections.map Prod.fst) →
      ∃ r, broadcastAux m st ks = .ok r ∧
        r.1.connections.map Prod.fst = st.connections.map Prod.fst := by
  intro ks
  induction ks with
  | nil => intro st _; exact ⟨_, rfl, rfl⟩
  | cons k rest ih =>
      intro st h
      obtain ⟨c, hc⟩ := lookupConn_of_mem_keys k st.connections (h k (by simp))
      obtain ⟨r, hr, hkeys⟩ := sendTo_ok_of_lookup st m k c hc
      obtain ⟨r2, hr2, hkeys2⟩ := ih r.1 (fun k' hk' => by
        rw [hkeys]; exact h k' (List.mem_cons_of_mem _ hk'))
      exact ⟨(r2.1, r.2 ++ r2.2),
        by simp [broadcastAux, hr, hr2, Except.bind, Except.map],
        by rw [hkeys2, hkeys]⟩

/-- C10.  `ServerConnection.send(msg, to)`: a defined destination that is
not a key of the connection table makes `_sendTo` throw
'Invalid destination for server message' — the error is raised before any
state is touched, so no connection record or buffer changes (the embedding
returns the bare error, carrying no successor state) — while a broadcast
(`to` omitted) iterates exactly over the known identities and therefore
never throws for this reason. -/
theorem server_send_invalid_destination :
    (∀ (st : ServerState) (m : Msg) (dest : String),
      lookupConn st.connections dest = none →
      sendServer st m (some dest) = .error "Invalid destination for server message") ∧
    (∀ (st : ServerState) (m : Msg), ∃ r, sendServer st m none = .ok r) := by
  constructor
  · intro st m dest h
    simp [sendServer, sendTo, h]
  · intro st m
    obtain ⟨r, hr, _⟩ := broadcastAux_ok m (st.connections.map Prod.fst) st
      (fun k hk => hk)
    exact ⟨r, hr⟩

/-- C10 witness: a table knowing only identity "phone": targeting "cloud"
throws, broadcasting succeeds. -/
theorem server_send_invalid_destination_witness :
    sendServer ⟨[("phone", ConnRecord.freshFor 4)], some "t"⟩ ⟨none, 9⟩
        (some "cloud") = .error "Invalid destination for server message" ∧
    ∃ r, sendServer ⟨[("phone", ConnRecord.freshFor 4)], some "t"⟩ ⟨none, 9⟩
        none = .ok r :=
  ⟨server_send_invalid_destination.1 ⟨[("phone", ConnRecord.freshFor 4)], some "t"⟩
      ⟨none, 9⟩ "cloud" (by decide),
   server_send_invalid_destination.2 ⟨[("phone", ConnRecord.freshFor 4)], some "t"⟩
      ⟨none, 9⟩⟩
